import Mathlib

/-!
Verification of the yieldAPI damage-analysis engine (`main.py`).

The Python source is embedded shallowly over `ℝ`:
* `math.radians`, `math.cos`, `math.sin`, `math.tan` become the Mathlib real
  functions;
* the fallible elevation HTTP lookup is represented by its outcome
  (`Except String ℝ`), and Python float division (which raises
  `ZeroDivisionError` on a zero divisor) by `pydiv` returning `Except`;
* the FastAPI endpoint `analyze_damage` becomes a pure function from the
  request data (plus the elevation oracle) to either an error or the response
  record.
-/

open scoped BigOperators

noncomputable section

/-- Degrees to radians, as in `math.radians`. -/
def radians (deg : ℝ) : ℝ := deg * Real.pi / 180

/-- `get_ground_elevation` (main.py lines 14-20): the HTTP request and JSON
field extraction form a fallible external call, represented here by its
outcome; the bare `except` branch turns any failure into `0.0`. -/
def get_ground_elevation (lookup : Except String ℝ) : ℝ :=
  match lookup with
  | Except.ok v => v
  | Except.error _ => 0

/-- The per-vertex projection used inside `polygon_area_from_latlon`
(lines 36-43): `x = (lon - lon_ref) * 111320 * cos(radians lat_ref)`,
`y = (lat - lat_ref) * 111320`. -/
def to_local (lat lon lat_ref lon_ref : ℝ) : ℝ × ℝ :=
  ((lon - lon_ref) * (111320 * Real.cos (radians lat_ref)),
   (lat - lat_ref) * 111320)

/-- `meters_to_latlon_offsets` (lines 55-58). -/
def meters_to_latlon_offsets (east_m north_m lat_ref : ℝ) : ℝ × ℝ :=
  (north_m / 111320, east_m / (111320 * Real.cos (radians lat_ref)))

/-- One term of the shoelace accumulation (line 50): `x1 * y2 - x2 * y1`. -/
def cross_term (p q : ℝ × ℝ) : ℝ := p.1 * q.2 - q.1 * p.2

/-- The shoelace loop of `polygon_area_from_latlon` (lines 45-50): indices run
over `range n` and the successor index wraps with `% n`. -/
def shoelace_sum (xy : List (ℝ × ℝ)) : ℝ :=
  ∑ i in Finset.range xy.length,
    cross_term (xy.getD i (0, 0)) (xy.getD ((i + 1) % xy.length) (0, 0))

/-- `polygon_area_from_latlon` (lines 27-52): fewer than 3 points gives 0;
otherwise project the vertices to the local plane with the mean latitude and
first longitude as reference, and return half the absolute shoelace sum. -/
def polygon_area_from_latlon (points : List (ℝ × ℝ)) : ℝ :=
  if points.length < 3 then 0
  else
    let lat_ref := (points.map Prod.fst).sum / (points.length : ℝ)
    let lon_ref := (points.getD 0 (0, 0)).2
    let xy := points.map fun p => to_local p.1 p.2 lat_ref lon_ref
    |shoelace_sum xy| * 0.5

/-- Height above ground with the clamp of lines 74-76: `h = alt - elev`,
replaced by `5` when `h ≤ 0`. -/
def effective_height (drone_alt_msl ground_elev : ℝ) : ℝ :=
  let h := drone_alt_msl - ground_elev
  if h ≤ 0 then 5 else h

/-- `near_angle` of line 79. -/
def near_angle_of (tilt fov_v : ℝ) : ℝ := max 0.0001 (tilt - fov_v / 2)

/-- `far_angle` of line 80. -/
def far_angle_of (tilt fov_v : ℝ) : ℝ := tilt + fov_v / 2

/-- `near_d` of line 82. -/
def near_dist (h tilt fov_v : ℝ) : ℝ :=
  h * Real.tan (radians (near_angle_of tilt fov_v))

/-- `far_d` of line 83. -/
def far_dist (h tilt fov_v : ℝ) : ℝ :=
  h * Real.tan (radians (far_angle_of tilt fov_v))

/-- Half-width of the footprint at forward distance `d` (lines 85-86). -/
def half_width (d fov_h : ℝ) : ℝ := d * Real.tan (radians (fov_h / 2))

/-- `en_from_forward_right` (lines 90-97): rotate forward/right offsets into
east/north by the compass heading. -/
def en_from_forward_right (heading_deg d_forward right_offset : ℝ) : ℝ × ℝ :=
  (d_forward * Real.sin (radians heading_deg) +
     right_offset * Real.cos (radians heading_deg),
   d_forward * Real.cos (radians heading_deg) +
     right_offset * (-Real.sin (radians heading_deg)))

/-- `camera_footprint_from_drone` (lines 65-111), with the elevation lookup
outcome passed in. -/
def camera_footprint_from_drone (elev_lookup : Except String ℝ)
    (drone_lat drone_lon drone_alt_msl compass_heading_deg mount_tilt_deg
     vertical_fov_deg horizontal_fov_deg : ℝ) : List (ℝ × ℝ) :=
  let ground_elev := get_ground_elevation elev_lookup
  let h := effective_height drone_alt_msl ground_elev
  let near_d := near_dist h mount_tilt_deg vertical_fov_deg
  let far_d := far_dist h mount_tilt_deg vertical_fov_deg
  let half_w_near := half_width near_d horizontal_fov_deg
  let half_w_far := half_width far_d horizontal_fov_deg
  let corners_en := [
    en_from_forward_right compass_heading_deg near_d (-half_w_near),
    en_from_forward_right compass_heading_deg near_d half_w_near,
    en_from_forward_right compass_heading_deg far_d half_w_far,
    en_from_forward_right compass_heading_deg far_d (-half_w_far)]
  corners_en.map fun c =>
    let dl := meters_to_latlon_offsets c.1 c.2 drone_lat
    (drone_lat + dl.1, drone_lon + dl.2)

/-- A damage region is a tagged variant: an explicit polygon or a drone pose
(the `ManualPolygon | DronePolygon` request union). -/
inductive DamageRegion
  | manual (points : List (ℝ × ℝ))
  | drone (drone_lat drone_lon drone_alt_msl compass_heading_deg mount_tilt_deg
      vertical_fov_deg horizontal_fov_deg : ℝ)

/-- The response dictionary of `analyze_damage` (lines 179-188). -/
structure DamageResponse where
  farm_area_m2 : ℝ
  total_plants : ℝ
  total_damage_area : ℝ
  total_lost_plants : ℝ
  remaining_plants : ℝ
  yield_remaining_percent : ℝ
  yield_lost_percent : ℝ
  total_rice_kg : ℝ

/-- Python float division: raises `ZeroDivisionError` when the divisor is
zero, otherwise returns the quotient. -/
def pydiv (a b : ℝ) : Except String ℝ :=
  if b = 0 then Except.error "ZeroDivisionError" else Except.ok (a / b)

/-- Resolution of one damage region to a polygon (lines 154-167): manual
regions use their own points, drone regions go through
`camera_footprint_from_drone`; the `elev` oracle supplies the elevation
lookup outcome at the drone position. -/
def resolve_polygon (elev : ℝ → ℝ → Except String ℝ) :
    DamageRegion → List (ℝ × ℝ)
  | DamageRegion.manual pts => pts
  | DamageRegion.drone lat lon alt heading tilt fov_v fov_h =>
      camera_footprint_from_drone (elev lat lon) lat lon alt heading tilt
        fov_v fov_h

/-- The `/analyze-damage` endpoint body (lines 146-188). Both Python `/`
occurrences are modelled by `pydiv`; the polygon loop is a fold accumulating
total area and total lost plants. -/
def analyze_damage (elev : ℝ → ℝ → Except String ℝ)
    (farm_area_m2 row_spacing plant_spacing : ℝ)
    (damage_polygons : List DamageRegion) : Except String DamageResponse :=
  match pydiv 1 (row_spacing * plant_spacing) with
  | Except.error e => Except.error e
  | Except.ok plant_density =>
    let total_plants := plant_density * farm_area_m2
    let totals := damage_polygons.foldl
      (fun acc d =>
        let area := polygon_area_from_latlon (resolve_polygon elev d)
        (acc.1 + area, acc.2 + area * plant_density)) ((0 : ℝ), (0 : ℝ))
    let surviving := total_plants - totals.2
    match pydiv surviving total_plants with
    | Except.error e => Except.error e
    | Except.ok q =>
      Except.ok
        { farm_area_m2 := farm_area_m2
          total_plants := total_plants
          total_damage_area := totals.1
          total_lost_plants := totals.2
          remaining_plants := surviving
          yield_remaining_percent := q * 100
          yield_lost_percent := 100 - q * 100
          total_rice_kg := surviving * 0.014 }

/-- C5: the effective height above ground equals `alt - elev` when that
difference is positive, and is clamped to exactly 5 when the difference is
non-positive; 105 over ground 100 gives 5 through the non-clamped branch,
and any altitude at or below ground elevation gives exactly 5. -/
theorem c5_effective_height_clamp :
    (∀ a g : ℝ, 0 < a - g → effective_height a g = a - g) ∧
    (∀ a g : ℝ, a - g ≤ 0 → effective_height a g = 5) ∧
    effective_height 105 100 = 5 ∧ ¬((105 : ℝ) - 100 ≤ 0) ∧
    (∀ a g : ℝ, a ≤ g → effective_height a g = 5) := by
  refine ⟨fun a g hpos => ?_, fun a g hle => ?_, ?_, by norm_num,
    fun a g hle => ?_⟩
  · simp only [effective_height, if_neg (not_le.mpr hpos)]
  · simp only [effective_height, if_pos hle]
  · have h5 : ¬((105 : ℝ) - 100 ≤ 0) := by norm_num
    simp only [effective_height, if_neg h5]
    norm_num
  · have h0 : a - g ≤ 0 := sub_nonpos.mpr hle
    simp only [effective_height, if_pos h0]

/-- Witness for C5 at altitude 200 m over ground elevation 50 m. -/
theorem c5_effective_height_clamp_witness :
    (0 : ℝ) < 200 - 50 ∧ effective_height 200 50 = 200 - 50 :=
  ⟨by norm_num, c5_effective_height_clamp.1 200 50 (by norm_num)⟩

/-- C6: fewer than 3 points gives area exactly 0 (total function, no
failure path). -/
theorem c6_degenerate_polygon_area_zero (pts : List (ℝ × ℝ))
    (h : pts.length < 3) : polygon_area_from_latlon pts = 0 := by
  simp only [polygon_area_from_latlon, if_pos h]

/-- Witness for C6 on the empty vertex list. -/
theorem c6_degenerate_polygon_area_zero_witness :
    ([] : List (ℝ × ℝ)).length < 3 ∧
      polygon_area_from_latlon ([] : List (ℝ × ℝ)) = 0 :=
  ⟨by simp, c6_degenerate_polygon_area_zero [] (by simp)⟩

/-- C7: any failure of the ground-elevation lookup is replaced by 0.0 (and a
successful lookup is passed through); footprint derivation is total and
always produces its four corners, so it never fails due to elevation-service
unavailability. -/
theorem c7_elevation_failure_defaults_to_zero :
    (∀ e : String, get_ground_elevation (Except.error e) = 0) ∧
    (∀ v : ℝ, get_ground_elevation (Except.ok v) = v) ∧
    (∀ (lookup : Except String ℝ) (lat lon alt heading tilt fov_v fov_h : ℝ),
      (camera_footprint_from_drone lookup lat lon alt heading tilt fov_v
        fov_h).length = 4) := by
  refine ⟨fun e => rfl, fun v => rfl, fun lookup lat lon alt heading tilt
    fov_v fov_h => ?_⟩
  simp [camera_footprint_from_drone]

/-- C8: the near look angle is `max 0.0001 (tilt - fov_v/2)` (so it is
strictly positive), the far look angle is `tilt + fov_v/2`, and the ground
distances are `h * tan` of the respective angles in radians. -/
theorem c8_look_angles_and_ground_distances :
    ∀ tilt fov_v h : ℝ,
      near_angle_of tilt fov_v = max 0.0001 (tilt - fov_v / 2) ∧
      far_angle_of tilt fov_v = tilt + fov_v / 2 ∧
      near_dist h tilt fov_v =
        h * Real.tan (radians (near_angle_of tilt fov_v)) ∧
      far_dist h tilt fov_v =
        h * Real.tan (radians (far_angle_of tilt fov_v)) ∧
      0 < near_angle_of tilt fov_v := by
  intro tilt fov_v h
  refine ⟨rfl, rfl, rfl, rfl, ?_⟩
  have h1 : (0 : ℝ) < 0.0001 := by norm_num
  exact lt_of_lt_of_le h1 (le_max_left _ _)

/-- C4: projecting a point into the local east/north plane and converting the
metric offsets back with the same reference recovers the original
coordinates exactly, hence within 1e-9 degrees (the reference latitude must
not put the longitude scale at zero). -/
theorem c4_projection_roundtrip (lat lon lat_ref lon_ref : ℝ)
    (h : Real.cos (radians lat_ref) ≠ 0) :
    lat_ref + (meters_to_latlon_offsets (to_local lat lon lat_ref lon_ref).1
        (to_local lat lon lat_ref lon_ref).2 lat_ref).1 = lat ∧
    lon_ref + (meters_to_latlon_offsets (to_local lat lon lat_ref lon_ref).1
        (to_local lat lon lat_ref lon_ref).2 lat_ref).2 = lon ∧
    |lat_ref + (meters_to_latlon_offsets (to_local lat lon lat_ref lon_ref).1
        (to_local lat lon lat_ref lon_ref).2 lat_ref).1 - lat| ≤ 1e-9 ∧
    |lon_ref + (meters_to_latlon_offsets (to_local lat lon lat_ref lon_ref).1
        (to_local lat lon lat_ref lon_ref).2 lat_ref).2 - lon| ≤ 1e-9 := by
  have h111320 : (111320 : ℝ) ≠ 0 := by norm_num
  have hm : (111320 : ℝ) * Real.cos (radians lat_ref) ≠ 0 :=
    mul_ne_zero h111320 h
  have hlat : lat_ref + (meters_to_latlon_offsets
      (to_local lat lon lat_ref lon_ref).1
      (to_local lat lon lat_ref lon_ref).2 lat_ref).1 = lat := by
    simp only [to_local, meters_to_latlon_offsets]
    field_simp
  have hlon : lon_ref + (meters_to_latlon_offsets
      (to_local lat lon lat_ref lon_ref).1
      (to_local lat lon lat_ref lon_ref).2 lat_ref).2 = lon := by
    simp only [to_local, meters_to_latlon_offsets]
    field_simp
  refine ⟨hlat, hlon, ?_, ?_⟩
  · rw [hlat]; simp only [sub_self, abs_zero]; norm_num
  · rw [hlon]; simp only [sub_self, abs_zero]; norm_num

/-- Witness for C4 at the point (12, 34) with reference (0, 7). -/
theorem c4_projection_roundtrip_witness :
    Real.cos (radians 0) ≠ 0 ∧
      (0 : ℝ) + (meters_to_latlon_offsets (to_local 12 34 0 7).1
        (to_local 12 34 0 7).2 0).1 = 12 :=
  ⟨by simp [radians], (c4_projection_roundtrip 12 34 0 7 (by simp [radians])).1⟩

/-- C10: with positive spacings but zero farm area, the endpoint reaches
`surviving / total_plants` with `total_plants = 0` and raises
`ZeroDivisionError`, for every polygon list and elevation oracle. -/
theorem c10_zero_farm_area_division_error
    (elev : ℝ → ℝ → Except String ℝ) (rs ps : ℝ)
    (hrs : 0 < rs) (hps : 0 < ps) (polys : List DamageRegion) :
    analyze_damage elev 0 rs ps polys = Except.error "ZeroDivisionError" := by
  have hprod : rs * ps ≠ 0 := ne_of_gt (mul_pos hrs hps)
  simp [analyze_damage, pydiv, hprod, mul_zero]

/-- Witness for C10 with spacings 0.2 m and no damage polygons. -/
theorem c10_zero_farm_area_division_error_witness :
    (0 : ℝ) < 1 / 5 ∧
      analyze_damage (fun _ _ => Except.error "") 0 (1 / 5) (1 / 5) [] =
        Except.error "ZeroDivisionError" :=
  ⟨by norm_num, c10_zero_farm_area_division_error _ (1 / 5) (1 / 5)
    (by norm_num) (by norm_num) []⟩

/-- Area of the concrete 222.64 m × 222.64 m test square centred on the
equator (mean latitude 0, so the longitude scale is exactly 111320). -/
theorem polygon_area_example_square :
    polygon_area_from_latlon [(-(1 / 1000), 0), (-(1 / 1000), 1 / 500),
      (1 / 1000, 1 / 500), (1 / 1000, 0)] = 49568.5696 := by
  unfold polygon_area_from_latlon
  norm_num [to_local, radians, shoelace_sum, cross_term,
    Finset.sum_range_succ, List.getD_cons_zero, List.getD_cons_succ]
  rw [abs_of_nonneg (by norm_num)]
  norm_num

/-- C1 failing input: farm_area = 10000, spacings 0.2 m (250000 plants), one
manual damage polygon of area 49568.5696 m², so lostPlants = 1239214.24
exceeds totalPlants. The code returns remaining_plants = −989214.24 with no
floor at zero, where the claim requires max(0, totalPlants − lostPlants) = 0
and never-negative. -/
theorem c1_surviving_plants_can_be_negative :
    ∃ out : DamageResponse,
      analyze_damage (fun _ _ => Except.error "") 10000 (1 / 5) (1 / 5)
          [DamageRegion.manual [(-(1 / 1000), 0), (-(1 / 1000), 1 / 500),
            (1 / 1000, 1 / 500), (1 / 1000, 0)]] = Except.ok out ∧
        out.remaining_plants = -989214.24 ∧ out.remaining_plants < 0 ∧
        out.remaining_plants ≠ max 0 (out.total_plants - out.total_lost_plants) := by
  refine ⟨{ farm_area_m2 := 10000
            total_plants := 250000
            total_damage_area := 49568.5696
            total_lost_plants := 1239214.24
            remaining_plants := -989214.24
            yield_remaining_percent := -395.685696
            yield_lost_percent := 495.685696
            total_rice_kg := -13848.99936 }, ?_, by norm_num, by norm_num, ?_⟩
  · norm_num [analyze_damage, pydiv, List.foldl, resolve_polygon,
      polygon_area_example_square, DamageResponse.mk.injEq]
  · have hmax : max (0 : ℝ) (250000 - 1239214.24) = 0 := by
      rw [max_eq_left]; norm_num
    simp only [hmax]
    norm_num

/-- Counterexample to C2: on the request farm_area = 10000,
row_spacing = plant_spacing = 0.2, no damage polygons, the code returns
total_rice_kg = 3500 = 0.014 × survivingPlants; the claimed value
0.014 × fertility(0.5) × factors × survivingPlants is at most
0.014 × 0.5 × 1 × 1.1 × 1 × 250000 = 1925 < 3500, so no admissible factor
values make the claim true. -/
theorem c2_counterexample :
    analyze_damage (fun _ _ => Except.error "") 10000 (1 / 5) (1 / 5) [] =
      Except.ok
        { farm_area_m2 := 10000
          total_plants := 250000
          total_damage_area := 0
          total_lost_plants := 0
          remaining_plants := 250000
          yield_remaining_percent := 100
          yield_lost_percent := 0
          total_rice_kg := 3500 } ∧
    (3500 : ℝ) ≠ 0.014 * 0.5 * 250000 ∧
    0.014 * 0.5 * 1 * 1.1 * 1 * (250000 : ℝ) < 3500 := by
  refine ⟨?_, by norm_num, by norm_num⟩
  norm_num [analyze_damage, pydiv, List.foldl, DamageResponse.mk.injEq]

/-- C2 as amended: the predicted total harvest mass equals 0.014 kg times the
surviving plant count, with no fertility, pest-risk, variety or growth-stage
factor applied (the endpoint takes no soil, pest, variety or stage input). -/
theorem c2_amended_rice_is_base_times_surviving
    (elev : ℝ → ℝ → Except String ℝ) (farm rs ps : ℝ)
    (polys : List DamageRegion) (out : DamageResponse)
    (h : analyze_damage elev farm rs ps polys = Except.ok out) :
    out.total_rice_kg = out.remaining_plants * 0.014 := by
  unfold analyze_damage at h
  split at h
  · exact absurd h (by simp)
  · dsimp only at h
    split at h
    · exact absurd h (by simp)
    · injection h with h'
      subst h'
      rfl

/-- Witness for the amended C2 on the no-damage request. -/
theorem c2_amended_rice_witness :
    (DamageResponse.mk 10000 250000 0 0 250000 100 0 3500).total_rice_kg =
      (DamageResponse.mk 10000 250000 0 0 250000 100 0
          3500).remaining_plants * 0.014 :=
  c2_amended_rice_is_base_times_surviving (fun _ _ => Except.error "")
    10000 (1 / 5) (1 / 5) [] _
    (by norm_num [analyze_damage, pydiv, List.foldl, DamageResponse.mk.injEq])


/-- The shoelace loop on a duplicated two-point list [P, P, Q, Q] sums to 0:
the two degenerate terms vanish and the two mixed terms cancel. -/
theorem shoelace_sum_pair_pair (P Q : ℝ × ℝ) : shoelace_sum [P, P, Q, Q] = 0 := by
  simp [shoelace_sum, Finset.sum_range_succ, cross_term,
    List.getD_cons_zero, List.getD_cons_succ]
  ring

/-- A four-vertex polygon of the shape [A, A, B, B] has area 0. -/
theorem polygon_area_pair_pair (A B : ℝ × ℝ) :
    polygon_area_from_latlon [A, A, B, B] = 0 := by
  unfold polygon_area_from_latlon
  rw [if_neg (by simp)]
  simp only [List.map_cons, List.map_nil, shoelace_sum_pair_pair, abs_zero]
  norm_num

/-- The set of points of a list [A, A, B, B] is the pair set, hence
collinear. -/
theorem collinear_pair_pair (A B : ℝ × ℝ) :
    Collinear ℝ {p : ℝ × ℝ | p ∈ [A, A, B, B]} := by
  have hset : {p : ℝ × ℝ | p ∈ [A, A, B, B]} = {A, B} := by
    ext x
    simp only [List.mem_cons, List.not_mem_nil, or_false, Set.mem_setOf_eq,
      Set.mem_insert_iff, Set.mem_singleton_iff]
    tauto
  rw [hset]
  exact collinear_pair ℝ A B

/-- C9: with horizontal field-of-view 0 the near and far half-widths are 0,
the four footprint corners are collinear, and the polygon area of the
footprint is exactly 0, for every tilt, vertical FOV, heading, position and
elevation outcome. -/
theorem c9_zero_horizontal_fov_degenerate_strip :
    ∀ (lookup : Except String ℝ) (lat lon alt heading tilt fov_v : ℝ),
      half_width (near_dist (effective_height alt
        (get_ground_elevation lookup)) tilt fov_v) 0 = 0 ∧
      half_width (far_dist (effective_height alt
        (get_ground_elevation lookup)) tilt fov_v) 0 = 0 ∧
      Collinear ℝ {p : ℝ × ℝ |
        p ∈ camera_footprint_from_drone lookup lat lon alt heading tilt fov_v 0} ∧
      polygon_area_from_latlon
        (camera_footprint_from_drone lookup lat lon alt heading tilt fov_v 0) = 0 := by
  intro lookup lat lon alt heading tilt fov_v
  have hhw : ∀ d : ℝ, half_width d 0 = 0 := by
    intro d
    simp [half_width, radians]
  obtain ⟨A, B, hfp⟩ : ∃ A B,
      camera_footprint_from_drone lookup lat lon alt heading tilt fov_v 0 =
        [A, A, B, B] := by
    refine ⟨(lat + (meters_to_latlon_offsets
        (en_from_forward_right heading (near_dist (effective_height alt
          (get_ground_elevation lookup)) tilt fov_v) 0).1
        (en_from_forward_right heading (near_dist (effective_height alt
          (get_ground_elevation lookup)) tilt fov_v) 0).2 lat).1,
      lon + (meters_to_latlon_offsets
        (en_from_forward_right heading (near_dist (effective_height alt
          (get_ground_elevation lookup)) tilt fov_v) 0).1
        (en_from_forward_right heading (near_dist (effective_height alt
          (get_ground_elevation lookup)) tilt fov_v) 0).2 lat).2),
      (lat + (meters_to_latlon_offsets
        (en_from_forward_right heading (far_dist (effective_height alt
          (get_ground_elevation lookup)) tilt fov_v) 0).1
        (en_from_forward_right heading (far_dist (effective_height alt
          (get_ground_elevation lookup)) tilt fov_v) 0).2 lat).1,
      lon + (meters_to_latlon_offsets
        (en_from_forward_right heading (far_dist (effective_height alt
          (get_ground_elevation lookup)) tilt fov_v) 0).1
        (en_from_forward_right heading (far_dist (effective_height alt
          (get_ground_elevation lookup)) tilt fov_v) 0).2 lat).2), ?_⟩
    simp only [camera_footprint_from_drone, hhw, neg_zero, List.map_cons,
      List.map_nil]
  refine ⟨hhw _, hhw _, ?_, ?_⟩
  · rw [hfp]; exact collinear_pair_pair A B
  · rw [hfp]; exact polygon_area_pair_pair A B

/-- The shoelace term is antisymmetric in its two vertices. -/
theorem cross_term_antisymm (p q : ℝ × ℝ) : cross_term p q = -cross_term q p := by
  unfold cross_term; ring

/-- Indexing a reversed list with an in-range index reads the mirrored
position of the original list. -/
theorem list_getD_reverse (l : List (ℝ × ℝ)) (i : ℕ) (h : i < l.length)
    (d : ℝ × ℝ) : l.reverse.getD i d = l.getD (l.length - 1 - i) d := by
  rw [List.getD_eq_getElem _ _ (by simpa using h),
    List.getD_eq_getElem _ _ (by omega)]
  simp [List.getElem_reverse]

/-- Summing over the wrapped successor index is a cyclic permutation of the
plain sum over `range n`. -/
theorem sum_range_mod_cycle (g : ℕ → ℝ) (n : ℕ) :
    ∑ i in Finset.range n, g ((i + 1) % n) = ∑ i in Finset.range n, g i := by
  cases n with
  | zero => simp
  | succ m =>
    rw [Finset.sum_range_succ, Nat.mod_self, Finset.sum_range_succ' g m]
    congr 1
    apply Finset.sum_congr rfl
    intro i hi
    rw [Nat.mod_eq_of_lt (Nat.succ_lt_succ (Finset.mem_range.mp hi))]

/-- The shoelace sum is invariant under a horizontal translation of all
vertices: the extra terms telescope cyclically to zero. This is what makes
the first-vertex longitude reference harmless. -/
theorem shoelace_sum_shift (xy : List (ℝ × ℝ)) (c : ℝ) :
    shoelace_sum (xy.map fun p => (p.1 + c, p.2)) = shoelace_sum xy := by
  unfold shoelace_sum
  rw [List.length_map]
  have hterm : ∀ i ∈ Finset.range xy.length,
      cross_term ((xy.map fun p => (p.1 + c, p.2)).getD i (0, 0))
        ((xy.map fun p => (p.1 + c, p.2)).getD ((i + 1) % xy.length) (0, 0)) =
      cross_term (xy.getD i (0, 0)) (xy.getD ((i + 1) % xy.length) (0, 0)) +
        c * ((xy.getD ((i + 1) % xy.length) (0, 0)).2 -
          (xy.getD i (0, 0)).2) := by
    intro i hi
    have hi' : i < xy.length := Finset.mem_range.mp hi
    have hn : 0 < xy.length := lt_of_le_of_lt (Nat.zero_le i) hi'
    have hj : (i + 1) % xy.length < xy.length := Nat.mod_lt _ hn
    rw [List.getD_eq_getElem _ _ (by simpa using hi'),
      List.getD_eq_getElem _ _ (by simpa using hj),
      List.getD_eq_getElem _ _ hi', List.getD_eq_getElem _ _ hj,
      List.getElem_map, List.getElem_map]
    simp only [cross_term]
    ring
  rw [Finset.sum_congr rfl hterm, Finset.sum_add_distrib, ← Finset.mul_sum,
    Finset.sum_sub_distrib,
    sum_range_mod_cycle (fun j => (xy.getD j (0, 0)).2) xy.length]
  ring

/-- Reversing the vertex list negates the signed shoelace sum. -/
theorem shoelace_sum_reverse (xy : List (ℝ × ℝ)) :
    shoelace_sum xy.reverse = -shoelace_sum xy := by
  rcases Nat.eq_zero_or_pos xy.length with h0 | hpos
  · have : xy = [] := List.length_eq_zero.mp h0
    subst this
    simp [shoelace_sum]
  · obtain ⟨m, hm⟩ : ∃ m, xy.length = m + 1 := ⟨xy.length - 1, by omega⟩
    unfold shoelace_sum
    rw [List.length_reverse, hm, Finset.sum_range_succ, Finset.sum_range_succ,
      Nat.mod_self]
    have hL : ∑ i in Finset.range m,
        cross_term (xy.reverse.getD i (0, 0))
          (xy.reverse.getD ((i + 1) % (m + 1)) (0, 0)) =
        ∑ i in Finset.range m,
          -cross_term (xy.getD (m - 1 - i) (0, 0))
            (xy.getD (m - 1 - i + 1) (0, 0)) := by
      apply Finset.sum_congr rfl
      intro i hi
      have him : i < m := Finset.mem_range.mp hi
      rw [Nat.mod_eq_of_lt (by omega),
        list_getD_reverse xy i (by omega),
        list_getD_reverse xy (i + 1) (by omega)]
      have h2 : xy.length - 1 - i = m - 1 - i + 1 := by omega
      have h3 : xy.length - 1 - (i + 1) = m - 1 - i := by omega
      rw [h2, h3, cross_term_antisymm]
    have hR : ∑ i in Finset.range m,
        cross_term (xy.getD i (0, 0))
          (xy.getD ((i + 1) % (m + 1)) (0, 0)) =
        ∑ i in Finset.range m,
          cross_term (xy.getD i (0, 0)) (xy.getD (i + 1) (0, 0)) := by
      apply Finset.sum_congr rfl
      intro i hi
      have him : i < m := Finset.mem_range.mp hi
      rw [Nat.mod_eq_of_lt (by omega)]
    rw [hL, hR, Finset.sum_neg_distrib,
      Finset.sum_range_reflect
        (fun j => cross_term (xy.getD j (0, 0)) (xy.getD (j + 1) (0, 0))) m,
      list_getD_reverse xy m (by omega), list_getD_reverse xy 0 (by omega)]
    have h4 : xy.length - 1 - m = 0 := by omega
    have h5 : xy.length - 1 - 0 = m := by omega
    rw [h4, h5, cross_term_antisymm]
    ring

/-- C3: for every vertex list with at least 3 points, the polygon area is
invariant under reversal of vertex order: the reversal negates the signed
shoelace sum, the changed longitude reference only translates the projected
x coordinates, and the result takes the absolute value. -/
theorem c3_area_reverse_invariant (pts : List (ℝ × ℝ))
    (h3 : 3 ≤ pts.length) :
    polygon_area_from_latlon pts.reverse = polygon_area_from_latlon pts := by
  have hnd : ¬(pts.length < 3) := by omega
  have hnr : ¬(pts.reverse.length < 3) := by rw [List.length_reverse]; omega
  unfold polygon_area_from_latlon
  rw [if_neg hnr, if_neg hnd]
  dsimp only
  simp only [List.length_reverse, List.map_reverse, List.sum_reverse]
  set latr : ℝ := (pts.map Prod.fst).sum / (pts.length : ℝ) with hlatr
  set lonr : ℝ := (pts.getD 0 (0, 0)).2 with hlonr
  set lonr' : ℝ := (pts.reverse.getD 0 (0, 0)).2 with hlonr'
  have hfun : ∀ p : ℝ × ℝ, to_local p.1 p.2 latr lonr' =
      ((to_local p.1 p.2 latr lonr).1 +
        (lonr - lonr') * (111320 * Real.cos (radians latr)),
       (to_local p.1 p.2 latr lonr).2) := by
    intro p
    unfold to_local
    simp only [Prod.mk.injEq]
    constructor
    · ring
    · trivial
  have hmap : (pts.map fun p => to_local p.1 p.2 latr lonr') =
      (pts.map fun p => to_local p.1 p.2 latr lonr).map
        (fun q => (q.1 + (lonr - lonr') *
          (111320 * Real.cos (radians latr)), q.2)) := by
    rw [List.map_map]
    congr 1
    funext p
    exact hfun p
  rw [shoelace_sum_reverse, abs_neg, hmap, shoelace_sum_shift]

/-- Witness for C3 on a concrete triangle. -/
theorem c3_witness :
    3 ≤ ([((0 : ℝ), (0 : ℝ)), (0, 1), (1, 0)] : List (ℝ × ℝ)).length ∧
      polygon_area_from_latlon
          ([((0 : ℝ), (0 : ℝ)), (0, 1), (1, 0)] : List (ℝ × ℝ)).reverse =
        polygon_area_from_latlon
          ([((0 : ℝ), (0 : ℝ)), (0, 1), (1, 0)] : List (ℝ × ℝ)) :=
  ⟨by simp, c3_area_reverse_invariant _ (by simp)⟩

end
